import Mathlib

/-!
Verification development for the `ix` chat backend's LLM-callback adapter
(`ix/chains/callbacks.py`) and the message-posting behaviour of its chat
service (known only through `ix/api/tests/test_chat.py` and the spec).

The adapter is embedded shallowly: the Django message table becomes a list
of `Message` records, the `defaultdict(RunContext)` registry becomes an
association list keyed by optional run ids, the django-channels publish
becomes an append to a list of `TokenEvent`s, `logger.error` becomes an
append to a list of `LogEntry`s, and a Python exception escaping a callback
becomes the `CbResult.raised` constructor (carrying the state as already
mutated before the exception escaped).  Wall-clock time is an explicit
`Nat` parameter.  Python `None` becomes `Option.none` throughout.
-/

/-- The JSON `content` payload of a `TaskLogMessage`, modelled as a record
with one optional field per key that `callbacks.py` ever writes, tagged by
the mandatory `type` key. -/
structure Content where
  type_ : String
  input : Option (List (String × String)) := none
  agent : Option String := none
  text : Option String := none
  stream : Option Bool := none
  runtime : Option Int := none
  feedback : Option String := none
  message : Option String := none
  error_type : Option String := none
  details : Option String := none
deriving DecidableEq

/-- A persisted `TaskLogMessage` row.  `id` is assigned as the store's
current length on creation, modelling an autoincrementing key. -/
structure Message where
  id : Nat
  task_id : Nat
  role : String
  parent_id : Option Nat := none
  agent_id : Option Nat := none
  content : Content
deriving DecidableEq

/-- One publish on the live token channel
(`ChatMessageTokenSubscription.on_new_token`). -/
structure TokenEvent where
  task_id : Nat
  message_id : Nat
  index : Nat
  text : Option String
deriving DecidableEq

/-- One `logger.error` call made by `send_error_msg`. -/
inductive LogEntry where
  | errorLogged (msg_id : Nat) (parent_id : Option Nat) (error_type : String)
  | errorText (text : String)
  | errorTrace (trace : String)
deriving DecidableEq

/-- A Python error value as the adapter observes it.  `isException` is
`isinstance(error, Exception)` (false for `KeyboardInterrupt`, which
subclasses `BaseException` directly); `str_` is `str(error)`;
`format_exc` is the joined `traceback.format_exception(...)` text;
`stack_str` is the output of the module's `exception_to_string`. -/
structure PyError where
  isException : Bool
  type_name : String
  str_ : String
  format_exc : String
  stack_str : String
deriving DecidableEq

/-- `RunContext` from `callbacks.py`: per-run scratch state.  `message`
holds the id of the cached placeholder `Message`, or `none`. -/
structure RunContext where
  is_streaming : Bool := false
  message : Option Nat := none
  tokens : List String := []
deriving DecidableEq

/-- The `invocation_params` kwarg of `on_chat_model_start`, restricted to
the two keys the handler reads (`_type` and `stream`); a missing key is
`none`, matching `dict.get`. -/
structure InvocationParams where
  type_ : Option String := none
  stream : Option Bool := none
deriving DecidableEq

/-- The handler's `contexts` registry: an association list from optional
run ids to run contexts. -/
abbrev Ctxs := List (Option Nat × RunContext)

/-- Lookup in the registry; an absent key yields a default `RunContext`,
matching `defaultdict(RunContext)`. -/
def getCtx : Ctxs → Option Nat → RunContext
  | [], _ => {}
  | p :: rest, k => if p.1 = k then p.2 else getCtx rest k

/-- Store a context under a key, replacing the first binding of that key
or appending a new one. -/
def setCtx : Ctxs → Option Nat → RunContext → Ctxs
  | [], k, c => [(k, c)]
  | p :: rest, k, c => if p.1 = k then (k, c) :: rest else p :: setCtx rest k c

/-- Whether a key is bound in the registry. -/
def keyMem : Ctxs → Option Nat → Bool
  | [], _ => false
  | p :: rest, k => if p.1 = k then true else keyMem rest k

/-- The full observable state of one `IxHandler` together with its
collaborators: the message store, the live channel, and the process log. -/
structure HandlerState where
  task_id : Nat
  agent_alias : String
  parent_think_msg : Option Nat := none
  start : Option Nat := none
  contexts : Ctxs := []
  messages : List Message := []
  published : List TokenEvent := []
  log : List LogEntry := []
deriving DecidableEq

/-- Outcome of one callback invocation: normal return, or a Python
exception escaping.  Either way the state carries every mutation performed
before the return or raise. -/
inductive CbResult where
  | ok (s : HandlerState)
  | raised (exc : String) (s : HandlerState)
deriving DecidableEq

/-- The state a callback left behind, whether it returned or raised. -/
def CbResult.state : CbResult → HandlerState
  | .ok s => s
  | .raised _ s => s

/-- Content of an `ASSISTANT` message as built by `send_agent_msg`. -/
def mkAssistantContent (text : String) (agent : String) (stream : Bool) : Content :=
  { type_ := "ASSISTANT", text := some text, agent := some agent, stream := some stream }

/-- `IxHandler.send_agent_msg`: create an assistant message parented to the
current think message.  Returns the new state and the created message. -/
def send_agent_msg (s : HandlerState) (text : String) (stream : Bool) :
    HandlerState × Message :=
  let m : Message :=
    { id := s.messages.length, task_id := s.task_id, role := "assistant",
      parent_id := s.parent_think_msg,
      content := mkAssistantContent text s.agent_alias stream }
  ({ s with messages := s.messages ++ [m] }, m)

/-- `IxHandler.on_chat_model_start`: attach to the parent chain's context;
for an `openai-chat` model copy the `stream` param into `is_streaming`;
when streaming, create the placeholder assistant message and cache it on
the context. -/
def on_chat_model_start (s : HandlerState) (parent_run_id : Option Nat)
    (params : InvocationParams) : HandlerState :=
  let ctx0 := getCtx s.contexts parent_run_id
  let ctx1 := if params.type_ = some "openai-chat"
              then { ctx0 with is_streaming := params.stream.getD false }
              else ctx0
  if ctx1.is_streaming then
    let sm := send_agent_msg s "" true
    let ctx2 := { ctx1 with message := some sm.2.id }
    { sm.1 with contexts := setCtx s.contexts parent_run_id ctx2 }
  else
    { s with contexts := setCtx s.contexts parent_run_id ctx1 }

/-- `IxHandler.on_llm_new_token`: append string tokens to the context's
buffer (a non-string token, modelled `none`, is skipped), then publish a
live update reading `context.message.id`; when no message is cached the
attribute access raises `AttributeError` after the buffer mutation. -/
def on_llm_new_token (s : HandlerState) (parent_run_id : Option Nat)
    (token : Option String) : CbResult :=
  let ctx0 := getCtx s.contexts parent_run_id
  let ctx1 := match token with
              | some t => { ctx0 with tokens := ctx0.tokens ++ [t] }
              | none => ctx0
  match ctx1.message with
  | none => .raised "AttributeError"
      { s with contexts := setCtx s.contexts parent_run_id ctx1 }
  | some mid => .ok
      { s with contexts := setCtx s.contexts parent_run_id ctx1,
               published := s.published ++
                 [{ task_id := s.task_id, message_id := mid,
                    index := ctx1.tokens.length, text := token }] }

/-- `IxHandler.on_chain_start`: on the first call (no think message yet)
record the start time and create the root `THINK` message; afterwards a
no-op. -/
def on_chain_start (s : HandlerState) (now : Nat)
    (inputs : List (String × String)) : HandlerState :=
  match s.parent_think_msg with
  | some _ => s
  | none =>
    let m : Message :=
      { id := s.messages.length, task_id := s.task_id, role := "system",
        parent_id := none,
        content := { type_ := "THINK", input := some inputs,
                     agent := some s.agent_alias } }
    { s with start := some now, messages := s.messages ++ [m],
             parent_think_msg := some m.id }

/-- Content update performed by `RunContext.finalize_stream`: set
`stream` to `False` and `text` to the joined token buffer. -/
def finalizeContent (c : Content) (tokens : List String) : Content :=
  { c with stream := some false, text := some (String.join tokens) }

/-- `RunContext.finalize_stream`: no-op without a cached message; else
rewrite that message's content (the `asave(update_fields=["content"])`
persists exactly the content column). -/
def finalize_stream (ctx : RunContext) (messages : List Message) : List Message :=
  match ctx.message with
  | none => messages
  | some mid => messages.map fun m =>
      if m.id = mid then { m with content := finalizeContent m.content ctx.tokens }
      else m

/-- `IxHandler.on_chain_end`: finalize the run's stream when marked
streaming; for an outermost chain (no parent run id) create the terminal
`THOUGHT` message, which dereferences `self.parent_think_msg.id` and reads
`self.start` and therefore raises `AttributeError` when `on_chain_start`
never ran. -/
def on_chain_end (s : HandlerState) (run_id : Nat) (parent_run_id : Option Nat)
    (now : Nat) : CbResult :=
  let ctx := getCtx s.contexts (some run_id)
  let s1 := if ctx.is_streaming
            then { s with messages := finalize_stream ctx s.messages }
            else s
  match parent_run_id with
  | some _ => .ok s1
  | none =>
    match s1.parent_think_msg with
    | none => .raised "AttributeError" s1
    | some tm =>
      match s1.start with
      | none => .raised "AttributeError" s1
      | some st =>
        let m : Message :=
          { id := s1.messages.length, task_id := s1.task_id, role := "system",
            parent_id := some tm,
            content := { type_ := "THOUGHT", runtime := some ((now : Int) - (st : Int)) } }
        .ok { s1 with messages := s1.messages ++ [m] }

/-- `IxHandler.send_error_msg`: assert the error is an `Exception`
instance (a `KeyboardInterrupt` fails the assert, raising
`AssertionError`), then persist one `EXECUTE_ERROR` message parented to
the think message when one exists, and log the id, text and trace. -/
def send_error_msg (s : HandlerState) (error : PyError) : CbResult :=
  if error.isException then
    let m : Message :=
      { id := s.messages.length, task_id := s.task_id, role := "assistant",
        parent_id := s.parent_think_msg,
        content := { type_ := "EXECUTE_ERROR", error_type := some error.type_name,
                     text := some error.str_, details := some error.format_exc } }
    .ok { s with messages := s.messages ++ [m],
                 log := s.log ++
                   [.errorLogged m.id s.parent_think_msg error.type_name,
                    .errorText error.str_,
                    .errorTrace error.stack_str] }
  else .raised "AssertionError" s

/-- `IxHandler.on_chain_error`: delegate to `send_error_msg`. -/
def on_chain_error (s : HandlerState) (error : PyError) : CbResult :=
  send_error_msg s error

/-- Feed a list of string tokens through `on_llm_new_token` one at a time,
stopping at the first escaping exception. -/
def feedTokens (s : HandlerState) (pr : Option Nat) : List String → CbResult
  | [] => .ok s
  | t :: rest =>
    match on_llm_new_token s pr (some t) with
    | .ok s1 => feedTokens s1 pr rest
    | .raised e s1 => .raised e s1

/-- The live-channel events that feeding tokens `ts` publishes when `k`
tokens are already buffered: the i-th fed token is published with index
`k + i` (the buffer's length right after it is appended). -/
def tokenEvents (taskId mid k : Nat) : List String → List TokenEvent
  | [] => []
  | t :: rest =>
    { task_id := taskId, message_id := mid, index := k + 1, text := some t } ::
      tokenEvents taskId mid (k + 1) rest

/-! ## Chat Service model (message posting)

The Chat Service's implementation is not among the provided sources; only
its tests (`ix/api/tests/test_chat.py`) are.  The definitions below are
modelled from the spec's description of the message-posting endpoint. -/

/-- Modelled from the spec: a member (or lead) agent as the Chat Service
sees it — an alias it can be @-mentioned by and the chain its runs
execute.  The endpoint's implementation is missing from the sources. -/
structure AgentRef where
  alias_ : String
  chain_id : Nat
deriving DecidableEq

/-- Modelled from the spec: the slice of a chat that message routing
reads — its id, its own task, its lead agent and its member agents.  The
endpoint's implementation is missing from the sources. -/
structure ChatService where
  chat_id : Nat
  task_id : Nat
  lead : AgentRef
  agents : List AgentRef
deriving DecidableEq

/-- Modelled from the spec: the background run dispatch
`(task_id, chain_id, inputs={user_input, chat_id, artifact_keys})`. -/
structure RunDispatch where
  task_id : Nat
  chain_id : Nat
  user_input : String
  chat_id : Nat
  artifact_keys : List String
deriving DecidableEq

/-- Modelled from the spec: the observable outcome of posting a message —
the created feedback message's fields, the subtask created (recorded as
its parent task id) when routing to a mentioned member agent, and the
enqueued run. -/
structure PostOutcome where
  feedback_text : String
  feedback_agent_id : Option Nat
  subtask_parent : Option Nat
  dispatch : RunDispatch
deriving DecidableEq

/-- Modelled from the spec: parse a leading `@alias` mention — the text of
the first word after `@` when the message starts with `@`, else none. -/
def parseMention (text : String) : Option String :=
  match text.toList with
  | c :: rest =>
    if c = Char.ofNat 64 then some (String.mk (rest.takeWhile (fun d => d ≠ ' ')))
    else none
  | [] => none

/-- Modelled from the spec: resolve a mentioned alias among the chat's
member agents. -/
def findAgent (agents : List AgentRef) (a : String) : Option AgentRef :=
  agents.find? (fun ag => ag.alias_ = a)

/-- Modelled from the spec: scan the text for placeholders between an
opening and a closing curly brace and collect the enclosed keys.  The
accumulator is the partial key while inside a placeholder. -/
def extractKeysAux : List Char → Option (List Char) → List String
  | [], _ => []
  | c :: rest, none =>
    if c = Char.ofNat 123 then extractKeysAux rest (some [])
    else extractKeysAux rest none
  | c :: rest, some acc =>
    if c = Char.ofNat 125 then String.mk acc.reverse :: extractKeysAux rest none
    else extractKeysAux rest (some (c :: acc))

/-- Modelled from the spec: extract the artifact keys referenced by a
message's text. -/
def extractArtifactKeys (text : String) : List String :=
  extractKeysAux text.toList none

/-- Modelled from the spec: post a message to a chat.  A mention of a
member agent routes to a fresh subtask (id `freshTaskId`, parented to the
chat's task) and that agent's chain; otherwise the chat's own task and the
lead's chain.  The feedback message never carries an agent id.  The
endpoint's implementation is missing from the sources. -/
def post_message (svc : ChatService) (freshTaskId : Nat) (text : String) :
    PostOutcome :=
  let keys := extractArtifactKeys text
  let routed := (parseMention text).bind (findAgent svc.agents)
  match routed with
  | some ag =>
    { feedback_text := text, feedback_agent_id := none,
      subtask_parent := some svc.task_id,
      dispatch := { task_id := freshTaskId, chain_id := ag.chain_id,
                    user_input := text, chat_id := svc.chat_id,
                    artifact_keys := keys } }
  | none =>
    { feedback_text := text, feedback_agent_id := none,
      subtask_parent := none,
      dispatch := { task_id := svc.task_id, chain_id := svc.lead.chain_id,
                    user_input := text, chat_id := svc.chat_id,
                    artifact_keys := keys } }

/-- A concrete chat used to exercise `post_message` on closed inputs: a
lead agent and one member agent that can be mentioned as `@helper`. -/
def demoChat : ChatService :=
  { chat_id := 10, task_id := 20,
    lead := { alias_ := "lead", chain_id := 30 },
    agents := [{ alias_ := "helper", chain_id := 40 }] }

/-- A concrete handler state for exercising the streaming round trip on
closed inputs: the execution's think message exists (id 0) and the chain
run's context is still fresh. -/
def demoStreamState : HandlerState :=
  { task_id := 1, agent_alias := "ix", parent_think_msg := some 0,
    start := some 2,
    messages := [{ id := 0, task_id := 1, role := "system",
                   content := { type_ := "THINK" } }] }

/-! ## Registry lemmas -/

theorem getCtx_setCtx_same (cs : Ctxs) (k : Option Nat) (c : RunContext) :
    getCtx (setCtx cs k c) k = c := by
  induction cs with
  | nil => simp [setCtx, getCtx]
  | cons p rest ih =>
    by_cases h : p.1 = k
    · simp [setCtx, getCtx, h]
    · simp [setCtx, getCtx, h, ih]

theorem getCtx_setCtx_ne (cs : Ctxs) (k k' : Option Nat) (c : RunContext)
    (h : k' ≠ k) : getCtx (setCtx cs k c) k' = getCtx cs k' := by
  induction cs with
  | nil => simp [setCtx, getCtx, Ne.symm h]
  | cons p rest ih =>
    by_cases hp : p.1 = k
    · simp [setCtx, getCtx, hp, h, Ne.symm h]
    · by_cases hp' : p.1 = k'
      · simp [setCtx, getCtx, hp, hp', h]
      · simp [setCtx, getCtx, hp, hp', ih]

theorem setCtx_setCtx (cs : Ctxs) (k : Option Nat) (c c' : RunContext) :
    setCtx (setCtx cs k c) k c' = setCtx cs k c' := by
  induction cs with
  | nil => simp [setCtx]
  | cons p rest ih =>
    by_cases h : p.1 = k
    · simp [setCtx, h]
    · simp [setCtx, h, ih]

theorem keyMem_setCtx (cs : Ctxs) (k : Option Nat) (c : RunContext) :
    keyMem (setCtx cs k c) k = true := by
  induction cs with
  | nil => simp [setCtx, keyMem]
  | cons p rest ih =>
    by_cases h : p.1 = k
    · simp [setCtx, keyMem, h]
    · simp [setCtx, keyMem, h, ih]

theorem setCtx_getCtx_of_mem (cs : Ctxs) (k : Option Nat)
    (h : keyMem cs k = true) : setCtx cs k (getCtx cs k) = cs := by
  induction cs with
  | nil => simp [keyMem] at h
  | cons p rest ih =>
    obtain ⟨pk, pc⟩ := p
    by_cases hp : pk = k
    · subst hp
      simp [setCtx, getCtx]
    · simp [keyMem, hp] at h
      simp [setCtx, getCtx, hp, ih h]

/-- Length is preserved by stream finalization (it only rewrites rows). -/
theorem finalize_stream_length (ctx : RunContext) (msgs : List Message) :
    (finalize_stream ctx msgs).length = msgs.length := by
  cases hm : ctx.message with
  | none => simp [finalize_stream, hm]
  | some mid => simp [finalize_stream, hm]

/-- Feeding string tokens through `on_llm_new_token` with a cached
placeholder never raises: the buffer grows by the fed tokens and one
update per token is published, indexed by the buffer length at the time of
its append. -/
theorem feedTokens_run (p mid : Nat) (b : Bool) (ts : List String) :
    ∀ (s : HandlerState) (ac : List String),
      keyMem s.contexts (some p) = true →
      getCtx s.contexts (some p) =
        { is_streaming := b, message := some mid, tokens := ac } →
      feedTokens s (some p) ts = .ok
        { s with
          contexts := setCtx s.contexts (some p)
            { is_streaming := b, message := some mid, tokens := ac ++ ts },
          published := s.published ++ tokenEvents s.task_id mid ac.length ts } := by
  induction ts with
  | nil =>
    intro s ac hmem hctx
    have h1 : setCtx s.contexts (some p) { is_streaming := b, message := some mid, tokens := ac } = s.contexts := by
      rw [← hctx]
      exact setCtx_getCtx_of_mem _ _ hmem
    simp [feedTokens, tokenEvents, h1]
  | cons t rest ih =>
    intro s ac hmem hctx
    have hstep : on_llm_new_token s (some p) (some t) = .ok { s with contexts := setCtx s.contexts (some p) { is_streaming := b, message := some mid, tokens := ac ++ [t] }, published := s.published ++ [{ task_id := s.task_id, message_id := mid, index := ac.length + 1, text := some t }] } := by
      simp [on_llm_new_token, hctx]
    have hih := ih { s with contexts := setCtx s.contexts (some p) { is_streaming := b, message := some mid, tokens := ac ++ [t] }, published := s.published ++ [{ task_id := s.task_id, message_id := mid, index := ac.length + 1, text := some t }] } (ac ++ [t]) (keyMem_setCtx _ _ _) (getCtx_setCtx_same _ _ _)
    simp only [feedTokens, hstep]
    rw [hih]
    simp [setCtx_setCtx, tokenEvents, List.append_assoc]

/-- Finalizing a freshly created placeholder rewrites exactly that row:
rows whose id differs are untouched. -/
theorem finalize_stream_fresh (mid : Nat) (toks : List String) (base : List Message)
    (m : Message) (b : Bool) (hid : m.id = mid) (hbase : ∀ x ∈ base, x.id ≠ mid) :
    finalize_stream { is_streaming := b, message := some mid, tokens := toks }
        (base ++ [m]) =
      base ++ [{ m with content := finalizeContent m.content toks }] := by
  have h2 : ∀ x ∈ base,
      (fun x => if x.id = mid then { x with content := finalizeContent x.content toks } else x) x = id x :=
    fun x hx => by simp [hbase x hx]
  simp only [finalize_stream, List.map_append]
  rw [List.map_congr_left h2, List.map_id]
  simp [hid]

/-! ## Claims -/

/-- C4: the first `on_chain_start` of an execution creates exactly one root
`THINK` message carrying the inputs and the agent's alias and records the
start timestamp; every later `on_chain_start` is a no-op. -/
theorem on_chain_start_think_once :
    (∀ (s : HandlerState) (now : Nat) (inputs : List (String × String)),
       s.parent_think_msg = none →
       on_chain_start s now inputs =
         { s with start := some now,
                  parent_think_msg := some s.messages.length,
                  messages := s.messages ++
                    [{ id := s.messages.length, task_id := s.task_id,
                       role := "system", parent_id := none,
                       content := { type_ := "THINK", input := some inputs,
                                    agent := some s.agent_alias } }] }) ∧
    (∀ (s : HandlerState) (now : Nat) (inputs : List (String × String)) (tm : Nat),
       s.parent_think_msg = some tm → on_chain_start s now inputs = s) := by
  constructor
  · intro s now inputs h
    simp [on_chain_start, h]
  · intro s now inputs tm h
    simp [on_chain_start, h]

/-- Witness for C4 at a concrete state: a first call creates the think
message, and a second call on the result is a no-op. -/
theorem on_chain_start_think_once_w :
    on_chain_start ({ task_id := 7, agent_alias := "ix" } : HandlerState) 5 [("q", "hi")] =
      { task_id := 7, agent_alias := "ix", start := some 5,
        parent_think_msg := some 0,
        messages := [{ id := 0, task_id := 7, role := "system", parent_id := none,
                       content := { type_ := "THINK", input := some [("q", "hi")],
                                    agent := some "ix" } }] } ∧
    on_chain_start ({ task_id := 7, agent_alias := "ix",
                      parent_think_msg := some 0 } : HandlerState) 9 [] =
      { task_id := 7, agent_alias := "ix", parent_think_msg := some 0 } := by
  refine ⟨?_, ?_⟩
  · have h := on_chain_start_think_once.1
      ({ task_id := 7, agent_alias := "ix" } : HandlerState) 5 [("q", "hi")] rfl
    simpa using h
  · exact on_chain_start_think_once.2
      ({ task_id := 7, agent_alias := "ix", parent_think_msg := some 0 } : HandlerState)
      9 [] 0 rfl

/-- C5: with a cached placeholder message, `on_llm_new_token` appends a
string token to the buffer (a non-string token leaves it unchanged) and in
both cases publishes an update with the message id, the buffer length
after any append as index, and the token text. -/
theorem on_llm_new_token_publishes (s : HandlerState) (pr : Option Nat) (mid : Nat)
    (h : (getCtx s.contexts pr).message = some mid) :
    (∀ t : String,
       on_llm_new_token s pr (some t) = .ok
         { s with
           contexts := setCtx s.contexts pr
             ({ getCtx s.contexts pr with
                tokens := (getCtx s.contexts pr).tokens ++ [t] }),
           published := s.published ++
             [{ task_id := s.task_id, message_id := mid,
                index := (getCtx s.contexts pr).tokens.length + 1,
                text := some t }] }) ∧
    on_llm_new_token s pr none = .ok
      { s with
        contexts := setCtx s.contexts pr (getCtx s.contexts pr),
        published := s.published ++
          [{ task_id := s.task_id, message_id := mid,
             index := (getCtx s.contexts pr).tokens.length,
             text := none }] } := by
  constructor
  · intro t
    simp [on_llm_new_token, h]
  · simp [on_llm_new_token, h]

/-- Witness for C5 at a concrete state holding a placeholder message. -/
theorem on_llm_new_token_publishes_w :
    on_llm_new_token
      ({ task_id := 3, agent_alias := "ix",
         contexts := [(some 1, { is_streaming := true, message := some 0,
                                 tokens := ["a"] })] } : HandlerState)
      (some 1) (some "b") = .ok
      { task_id := 3, agent_alias := "ix",
        contexts := [(some 1, { is_streaming := true, message := some 0,
                                tokens := ["a", "b"] })],
        published := [{ task_id := 3, message_id := 0, index := 2,
                        text := some "b" }] } := by
  have h := (on_llm_new_token_publishes
    ({ task_id := 3, agent_alias := "ix",
       contexts := [(some 1, { is_streaming := true, message := some 0,
                               tokens := ["a"] })] } : HandlerState)
    (some 1) 0 (by decide)).1 "b"
  simpa [getCtx, setCtx] using h

/-- C6: `finalize_stream` is a no-op without an attached message, and a
second call rewrites exactly the same final state as the first. -/
theorem finalize_stream_noop_and_rewrite :
    (∀ (ctx : RunContext) (msgs : List Message),
       ctx.message = none → finalize_stream ctx msgs = msgs) ∧
    (∀ (ctx : RunContext) (msgs : List Message),
       finalize_stream ctx (finalize_stream ctx msgs) = finalize_stream ctx msgs) := by
  constructor
  · intro ctx msgs h
    simp [finalize_stream, h]
  · intro ctx msgs
    cases hm : ctx.message with
    | none => simp [finalize_stream, hm]
    | some mid =>
      simp only [finalize_stream, hm, List.map_map]
      apply List.map_congr_left
      intro m _
      by_cases hid : m.id = mid
      · simp [Function.comp, hid, finalizeContent]
      · simp [Function.comp, hid]

/-- Witness for C6: the no-op branch at a concrete message-less context. -/
theorem finalize_stream_noop_and_rewrite_w :
    finalize_stream ({ is_streaming := true, tokens := ["x"] } : RunContext)
      [{ id := 0, task_id := 1, role := "system",
         content := { type_ := "THINK" } }] =
      [{ id := 0, task_id := 1, role := "system",
         content := { type_ := "THINK" } }] :=
  finalize_stream_noop_and_rewrite.1
    ({ is_streaming := true, tokens := ["x"] } : RunContext)
    [{ id := 0, task_id := 1, role := "system",
       content := { type_ := "THINK" } }] rfl

/-- C7: frame property of `finalize_stream` — the store keeps its shape,
each row keeps every field except possibly the content's `stream` and
`text`, and a row whose id is not the finalized message is untouched. -/
theorem finalize_stream_frame (ctx : RunContext) (msgs : List Message)
    (i : Nat) (m : Message) (h : msgs[i]? = some m) :
    ∃ m', (finalize_stream ctx msgs)[i]? = some m' ∧
      m'.id = m.id ∧ m'.task_id = m.task_id ∧ m'.role = m.role ∧
      m'.parent_id = m.parent_id ∧ m'.agent_id = m.agent_id ∧
      m'.content.type_ = m.content.type_ ∧
      m'.content.input = m.content.input ∧
      m'.content.agent = m.content.agent ∧
      m'.content.runtime = m.content.runtime ∧
      m'.content.feedback = m.content.feedback ∧
      m'.content.message = m.content.message ∧
      m'.content.error_type = m.content.error_type ∧
      m'.content.details = m.content.details ∧
      (ctx.message ≠ some m.id → m' = m) := by
  cases hm : ctx.message with
  | none =>
    refine ⟨m, ?_⟩
    simp [finalize_stream, hm, h]
  | some mid =>
    by_cases hid : m.id = mid
    · refine ⟨{ m with content := finalizeContent m.content ctx.tokens }, ?_⟩
      simp [finalize_stream, hm, List.getElem?_map, h, hid, finalizeContent]
    · refine ⟨m, ?_⟩
      simp [finalize_stream, hm, List.getElem?_map, h, hid]

/-- Witness for C7 on a concrete one-row store whose row is not the
finalized message. -/
theorem finalize_stream_frame_w :
    ∃ m', (finalize_stream
        ({ is_streaming := true, message := some 5, tokens := ["x"] } : RunContext)
        [{ id := 0, task_id := 1, role := "system",
           content := { type_ := "THINK" } }])[0]? = some m' ∧
      m'.id = 0 ∧ m'.task_id = 1 ∧ m'.role = "system" ∧
      m'.parent_id = none ∧ m'.agent_id = none ∧
      m'.content.type_ = "THINK" ∧
      m'.content.input = none ∧ m'.content.agent = none ∧
      m'.content.runtime = none ∧ m'.content.feedback = none ∧
      m'.content.message = none ∧ m'.content.error_type = none ∧
      m'.content.details = none ∧
      (({ is_streaming := true, message := some 5, tokens := ["x"] } : RunContext).message ≠ some 0 →
        m' = { id := 0, task_id := 1, role := "system",
               content := { type_ := "THINK" } }) :=
  finalize_stream_frame
    ({ is_streaming := true, message := some 5, tokens := ["x"] } : RunContext)
    [{ id := 0, task_id := 1, role := "system", content := { type_ := "THINK" } }]
    0 _ rfl

/-- C9: a token callback for a context without a cached placeholder
message raises `AttributeError` (the publish step dereferences
`context.message.id`). -/
theorem on_llm_new_token_requires_message (s : HandlerState) (pr : Option Nat)
    (tok : Option String) (h : (getCtx s.contexts pr).message = none) :
    ∃ s', on_llm_new_token s pr tok = .raised "AttributeError" s' := by
  cases tok with
  | none =>
    refine ⟨{ s with contexts := setCtx s.contexts pr (getCtx s.contexts pr) }, ?_⟩
    simp [on_llm_new_token, h]
  | some t =>
    refine ⟨{ s with contexts := setCtx s.contexts pr { getCtx s.contexts pr with tokens := (getCtx s.contexts pr).tokens ++ [t] } }, ?_⟩
    simp [on_llm_new_token, h]

/-- Witness for C9 at a concrete fresh state. -/
theorem on_llm_new_token_requires_message_w :
    ∃ s', on_llm_new_token ({ task_id := 1, agent_alias := "ix" } : HandlerState)
      (some 4) (some "t") = .raised "AttributeError" s' :=
  on_llm_new_token_requires_message
    ({ task_id := 1, agent_alias := "ix" } : HandlerState) (some 4) (some "t")
    (by decide)

/-- C10: an outermost `on_chain_end` without a prior `on_chain_start`
raises `AttributeError` and records no thought message (the store's length
is unchanged; only a streaming placeholder may have been rewritten in
place). -/
theorem on_chain_end_requires_think (s : HandlerState) (rid now : Nat)
    (h : s.parent_think_msg = none) :
    ∃ s', on_chain_end s rid none now = .raised "AttributeError" s' ∧
      s'.messages.length = s.messages.length := by
  by_cases hs : (getCtx s.contexts (some rid)).is_streaming
  · refine ⟨{ s with
        messages := finalize_stream (getCtx s.contexts (some rid)) s.messages }, ?_, ?_⟩
    · simp [on_chain_end, hs, h]
    · simp [finalize_stream_length]
  · exact ⟨s, by simp [on_chain_end, hs, h], rfl⟩

/-- Witness for C10 at a concrete uninitialized state. -/
theorem on_chain_end_requires_think_w :
    ∃ s', on_chain_end ({ task_id := 1, agent_alias := "ix" } : HandlerState)
        2 none 10 = .raised "AttributeError" s' ∧
      s'.messages.length =
        ({ task_id := 1, agent_alias := "ix" } : HandlerState).messages.length :=
  on_chain_end_requires_think
    ({ task_id := 1, agent_alias := "ix" } : HandlerState) 2 10 rfl

/-- C2 counterexample: a `KeyboardInterrupt` (which is not an `Exception`
instance) makes `on_chain_error` itself raise `AssertionError` via the
`assert isinstance(error, Exception)` in `send_error_msg`, refuting the
claim that the callback never raises for every value its signature
admits. -/
theorem on_chain_error_kb_interrupt_raises :
    on_chain_error ({ task_id := 1, agent_alias := "ix" } : HandlerState)
      { isException := false, type_name := "KeyboardInterrupt", str_ := "",
        format_exc := "", stack_str := "" } =
    .raised "AssertionError" ({ task_id := 1, agent_alias := "ix" } : HandlerState) := by
  decide

/-- C2 amended: for an `Exception` instance the callback records exactly
one `EXECUTE_ERROR` message and returns normally; for a value that is not
an `Exception` instance (such as `KeyboardInterrupt`) the assertion in
`send_error_msg` fails and the callback raises `AssertionError`. -/
theorem on_chain_error_records_or_asserts :
    (∀ (s : HandlerState) (e : PyError), e.isException = true →
       ∃ s' m, on_chain_error s e = .ok s' ∧ s'.messages = s.messages ++ [m] ∧
         m.content.type_ = "EXECUTE_ERROR" ∧
         m.content.error_type = some e.type_name) ∧
    (∀ (s : HandlerState) (e : PyError), e.isException = false →
       on_chain_error s e = .raised "AssertionError" s) := by
  constructor
  · intro s e he
    have hx : on_chain_error s e = .ok { s with messages := s.messages ++ [{ id := s.messages.length, task_id := s.task_id, role := "assistant", parent_id := s.parent_think_msg, content := { type_ := "EXECUTE_ERROR", error_type := some e.type_name, text := some e.str_, details := some e.format_exc } }], log := s.log ++ [.errorLogged s.messages.length s.parent_think_msg e.type_name, .errorText e.str_, .errorTrace e.stack_str] } := by
      simp [on_chain_error, send_error_msg, he]
    exact ⟨_, _, hx, rfl, rfl, rfl⟩
  · intro s e he
    simp [on_chain_error, send_error_msg, he]

/-- Witness for the amended C2, exercising both branches at concrete
inputs. -/
theorem on_chain_error_records_or_asserts_w :
    (∃ s' m, on_chain_error ({ task_id := 1, agent_alias := "ix" } : HandlerState)
        { isException := true, type_name := "ValueError", str_ := "boom",
          format_exc := "tb", stack_str := "st" } = .ok s' ∧
      s'.messages = ({ task_id := 1, agent_alias := "ix" } : HandlerState).messages ++ [m] ∧
      m.content.type_ = "EXECUTE_ERROR" ∧
      m.content.error_type = some "ValueError") ∧
    on_chain_error ({ task_id := 1, agent_alias := "ix" } : HandlerState)
      { isException := false, type_name := "SystemExit", str_ := "",
        format_exc := "", stack_str := "" } =
    .raised "AssertionError" ({ task_id := 1, agent_alias := "ix" } : HandlerState) :=
  ⟨on_chain_error_records_or_asserts.1
      ({ task_id := 1, agent_alias := "ix" } : HandlerState)
      { isException := true, type_name := "ValueError", str_ := "boom",
        format_exc := "tb", stack_str := "st" } rfl,
   on_chain_error_records_or_asserts.2
      ({ task_id := 1, agent_alias := "ix" } : HandlerState)
      { isException := false, type_name := "SystemExit", str_ := "",
        format_exc := "", stack_str := "" } rfl⟩

/-- C3: an erroring chain (the error being an `Exception` instance, as the
callback asserts) yields exactly one `EXECUTE_ERROR` message, parented to
the current think message when one exists and root otherwise, whose
content holds the error's type name, string form and formatted traceback;
the same information goes to the process log, and the callback returns
normally instead of re-raising. -/
theorem on_chain_error_records_error (s : HandlerState) (e : PyError)
    (he : e.isException = true) :
    on_chain_error s e = .ok
      { s with
        messages := s.messages ++
          [{ id := s.messages.length, task_id := s.task_id, role := "assistant",
             parent_id := s.parent_think_msg,
             content := { type_ := "EXECUTE_ERROR",
                          error_type := some e.type_name,
                          text := some e.str_,
                          details := some e.format_exc } }],
        log := s.log ++
          [.errorLogged s.messages.length s.parent_think_msg e.type_name,
           .errorText e.str_,
           .errorTrace e.stack_str] } := by
  simp [on_chain_error, send_error_msg, he]

/-- Witness for C3 at a concrete state with a think message present. -/
theorem on_chain_error_records_error_w :
    on_chain_error
      ({ task_id := 2, agent_alias := "ix", parent_think_msg := some 0,
         messages := [{ id := 0, task_id := 2, role := "system",
                        content := { type_ := "THINK" } }] } : HandlerState)
      { isException := true, type_name := "KeyError", str_ := "missing",
        format_exc := "tbtext", stack_str := "sttext" } = .ok
      { task_id := 2, agent_alias := "ix", parent_think_msg := some 0,
        messages := [{ id := 0, task_id := 2, role := "system",
                       content := { type_ := "THINK" } },
                     { id := 1, task_id := 2, role := "assistant",
                       parent_id := some 0,
                       content := { type_ := "EXECUTE_ERROR",
                                    error_type := some "KeyError",
                                    text := some "missing",
                                    details := some "tbtext" } }],
        log := [.errorLogged 1 (some 0) "KeyError",
                .errorText "missing",
                .errorTrace "sttext"] } := by
  have h := on_chain_error_records_error
    ({ task_id := 2, agent_alias := "ix", parent_think_msg := some 0,
       messages := [{ id := 0, task_id := 2, role := "system",
                      content := { type_ := "THINK" } }] } : HandlerState)
    { isException := true, type_name := "KeyError", str_ := "missing",
      format_exc := "tbtext", stack_str := "sttext" } rfl
  simpa using h

/-- C8: posting a message without a mention enqueues a run on the chat's
own task and the lead's chain (no subtask); posting an at-mention of a
member agent enqueues a run on a fresh subtask parented to the chat's task
and that agent's chain; the feedback message never carries an agent id.
The endpoint itself is modelled from the spec, its code being absent from
the sources. -/
theorem post_message_routing (svc : ChatService) (fresh : Nat) (text : String) :
    (parseMention text = none →
       (post_message svc fresh text).dispatch.task_id = svc.task_id ∧
       (post_message svc fresh text).dispatch.chain_id = svc.lead.chain_id ∧
       (post_message svc fresh text).subtask_parent = none) ∧
    (∀ a ag, parseMention text = some a → findAgent svc.agents a = some ag →
       (post_message svc fresh text).subtask_parent = some svc.task_id ∧
       (post_message svc fresh text).dispatch.task_id = fresh ∧
       (post_message svc fresh text).dispatch.chain_id = ag.chain_id) ∧
    (post_message svc fresh text).feedback_agent_id = none := by
  refine ⟨?_, ?_, ?_⟩
  · intro h
    simp [post_message, h]
  · intro a ag hm hf
    simp [post_message, hm, hf]
  · cases hr : (parseMention text).bind (findAgent svc.agents) with
    | none => simp [post_message, hr]
    | some ag => simp [post_message, hr]

/-- Witness for C8: both routing branches at a concrete chat. -/
theorem post_message_routing_w :
    ((post_message demoChat 99 "hello").dispatch.task_id = demoChat.task_id ∧
     (post_message demoChat 99 "hello").dispatch.chain_id = demoChat.lead.chain_id ∧
     (post_message demoChat 99 "hello").subtask_parent = none) ∧
    ((post_message demoChat 99 "@helper hi").subtask_parent = some demoChat.task_id ∧
     (post_message demoChat 99 "@helper hi").dispatch.task_id = 99 ∧
     (post_message demoChat 99 "@helper hi").dispatch.chain_id = 40) :=
  ⟨(post_message_routing demoChat 99 "hello").1 (by decide),
   (post_message_routing demoChat 99 "@helper hi").2.1
      "helper" { alias_ := "helper", chain_id := 40 } (by decide) (by decide)⟩

/-- C1: streaming round trip.  From a state whose chain run `p` has a
fresh context (and whose execution already has its think message, as every
real execution does after `on_chain_start`), `on_chat_model_start` with
invocation params declaring a streaming `openai-chat` model creates
exactly one placeholder `ASSISTANT` message with empty text and
`stream = true`; feeding string tokens `ts` publishes one update per token
whose index is the token count so far (`tokenEvents` with offset `0`); and
after `on_chain_end` for run `p` that same row holds `stream = false` and
the concatenation of the tokens in arrival order, the earlier rows being
untouched. -/
theorem streaming_round_trip (s0 : HandlerState) (p : Nat) (ts : List String)
    (prEnd : Option Nat) (now tm st : Nat)
    (hctx : getCtx s0.contexts (some p) = {})
    (hids : ∀ m ∈ s0.messages, m.id < s0.messages.length)
    (hthink : s0.parent_think_msg = some tm)
    (hstart : s0.start = some st) :
    ∃ s2,
      on_chat_model_start s0 (some p)
          { type_ := some "openai-chat", stream := some true } =
        { s0 with
          messages := s0.messages ++
            [{ id := s0.messages.length, task_id := s0.task_id,
               role := "assistant", parent_id := some tm,
               content := mkAssistantContent "" s0.agent_alias true }],
          contexts := setCtx s0.contexts (some p)
            { is_streaming := true, message := some s0.messages.length,
              tokens := [] } } ∧
      feedTokens
          (on_chat_model_start s0 (some p)
            { type_ := some "openai-chat", stream := some true })
          (some p) ts = .ok s2 ∧
      s2.published = s0.published ++
        tokenEvents s0.task_id s0.messages.length 0 ts ∧
      ∃ extra,
        (on_chain_end s2 p prEnd now).state.messages =
          s0.messages ++
            ({ id := s0.messages.length, task_id := s0.task_id,
               role := "assistant", parent_id := some tm,
               content := { type_ := "ASSISTANT",
                            text := some (String.join ts),
                            agent := some s0.agent_alias,
                            stream := some false } } :: extra) := by
  have h1 : on_chat_model_start s0 (some p) { type_ := some "openai-chat", stream := some true } = { s0 with messages := s0.messages ++ [{ id := s0.messages.length, task_id := s0.task_id, role := "assistant", parent_id := some tm, content := mkAssistantContent "" s0.agent_alias true }], contexts := setCtx s0.contexts (some p) { is_streaming := true, message := some s0.messages.length, tokens := [] } } := by
    simp [on_chat_model_start, hctx, send_agent_msg, hthink]
  have h2 : feedTokens { s0 with messages := s0.messages ++ [{ id := s0.messages.length, task_id := s0.task_id, role := "assistant", parent_id := some tm, content := mkAssistantContent "" s0.agent_alias true }], contexts := setCtx s0.contexts (some p) { is_streaming := true, message := some s0.messages.length, tokens := [] } } (some p) ts = .ok { s0 with messages := s0.messages ++ [{ id := s0.messages.length, task_id := s0.task_id, role := "assistant", parent_id := some tm, content := mkAssistantContent "" s0.agent_alias true }], contexts := setCtx s0.contexts (some p) { is_streaming := true, message := some s0.messages.length, tokens := ts }, published := s0.published ++ tokenEvents s0.task_id s0.messages.length 0 ts } := by
    have h := feedTokens_run p s0.messages.length true ts { s0 with messages := s0.messages ++ [{ id := s0.messages.length, task_id := s0.task_id, role := "assistant", parent_id := some tm, content := mkAssistantContent "" s0.agent_alias true }], contexts := setCtx s0.contexts (some p) { is_streaming := true, message := some s0.messages.length, tokens := [] } } [] (keyMem_setCtx _ _ _) (getCtx_setCtx_same _ _ _)
    simpa [setCtx_setCtx] using h
  refine ⟨{ s0 with messages := s0.messages ++ [{ id := s0.messages.length, task_id := s0.task_id, role := "assistant", parent_id := some tm, content := mkAssistantContent "" s0.agent_alias true }], contexts := setCtx s0.contexts (some p) { is_streaming := true, message := some s0.messages.length, tokens := ts }, published := s0.published ++ tokenEvents s0.task_id s0.messages.length 0 ts }, h1, ?_, ?_, ?_⟩
  · rw [h1]
    exact h2
  · rfl
  · have hfin : finalize_stream { is_streaming := true, message := some s0.messages.length, tokens := ts } (s0.messages ++ [{ id := s0.messages.length, task_id := s0.task_id, role := "assistant", parent_id := some tm, content := mkAssistantContent "" s0.agent_alias true }]) = s0.messages ++ [{ id := s0.messages.length, task_id := s0.task_id, role := "assistant", parent_id := some tm, content := { type_ := "ASSISTANT", text := some (String.join ts), agent := some s0.agent_alias, stream := some false } }] := by
      have h := finalize_stream_fresh s0.messages.length ts s0.messages { id := s0.messages.length, task_id := s0.task_id, role := "assistant", parent_id := some tm, content := mkAssistantContent "" s0.agent_alias true } true rfl (fun x hx => Nat.ne_of_lt (hids x hx))
      simpa [mkAssistantContent, finalizeContent] using h
    cases prEnd with
    | some q =>
      refine ⟨[], ?_⟩
      simp [on_chain_end, getCtx_setCtx_same, CbResult.state, hfin]
    | none =>
      refine ⟨[{ id := s0.messages.length + 1, task_id := s0.task_id, role := "system", parent_id := some tm, content := { type_ := "THOUGHT", runtime := some ((now : Int) - (st : Int)) } }], ?_⟩
      simp [on_chain_end, getCtx_setCtx_same, CbResult.state, hfin, hthink, hstart]

/-- Witness for C1 at a concrete state, streaming the two tokens `"he"`
and `"llo"`. -/
theorem streaming_round_trip_w :
    ∃ s2,
      on_chat_model_start demoStreamState (some 5)
          { type_ := some "openai-chat", stream := some true } =
        { demoStreamState with
          messages := demoStreamState.messages ++
            [{ id := demoStreamState.messages.length,
               task_id := demoStreamState.task_id,
               role := "assistant", parent_id := some 0,
               content := mkAssistantContent "" demoStreamState.agent_alias true }],
          contexts := setCtx demoStreamState.contexts (some 5)
            { is_streaming := true,
              message := some demoStreamState.messages.length,
              tokens := [] } } ∧
      feedTokens
          (on_chat_model_start demoStreamState (some 5)
            { type_ := some "openai-chat", stream := some true })
          (some 5) ["he", "llo"] = .ok s2 ∧
      s2.published = demoStreamState.published ++
        tokenEvents demoStreamState.task_id demoStreamState.messages.length 0
          ["he", "llo"] ∧
      ∃ extra,
        (on_chain_end s2 5 (some 9) 3).state.messages =
          demoStreamState.messages ++
            ({ id := demoStreamState.messages.length,
               task_id := demoStreamState.task_id,
               role := "assistant", parent_id := some 0,
               content := { type_ := "ASSISTANT",
                            text := some (String.join ["he", "llo"]),
                            agent := some demoStreamState.agent_alias,
                            stream := some false } } :: extra) :=
  streaming_round_trip demoStreamState 5 ["he", "llo"] (some 9) 3 0 2 rfl
    (by decide) rfl rfl
